import Mathlib

/-!
Verification of the soft-navigation engine in `src/theme/js/penguin.js`
(Penguin MkDocs theme, Astro-inspired view transitions).

The JavaScript is shallowly embedded: browser-dependent effects (network
requests, DOM mutation, history writes, scrolling, event dispatch) are
recorded as explicit `Action` values or threaded through explicit state
records, while the control flow and the data manipulated by the source
functions are translated directly.  External event listeners are modelled
as absent (so `document.dispatchEvent` of a cancelable event returns
`true` and no listener cancels it), which is the default environment the
spec's scenarios describe.
-/

set_option autoImplicit false

namespace Penguin

/-- A parsed URL, mirroring the fields of the browser `URL` object that
`penguin.js` reads: `origin`, `pathname`, `search`, `hash` and `href`. -/
structure Url where
  origin : String
  pathname : String
  search : String
  hash : String
  href : String
deriving DecidableEq, Repr

/-! ### Prefetch Manager (`prefetchPage`, `canPrefetch`, lines 173–203) -/

/-- The parts of the browser environment that `canPrefetch` consults:
`navigator.onLine`, `isSlowConnection()`, the current `location`, and URL
parsing (`new URL(url, location.href)`, which throws on an unparseable
string — modelled as `none`). -/
structure PrefetchEnv where
  online : Bool
  slowConnection : Bool
  locationOrigin : String
  locationPathname : String
  locationSearch : String
  parseUrl : String → Option Url

/-- Options bag of `prefetchPage` (`options?.with`, `options?.ignoreSlowConnection`).
`with` is a Lean keyword, hence the field name `prefetchWith`. -/
structure PrefetchOpts where
  prefetchWith : Option String := none
  ignoreSlowConnection : Option Bool := none

/-- Effect issued by a successful `prefetchPage` call: either a
`<link rel="prefetch">` appended to the head, or a `fetch(url)` request. -/
inductive PrefetchAction where
  | preloadLink (url : String)
  | fetchRequest (url : String)
deriving DecidableEq, Repr

/-- `canPrefetch(url, ignoreSlowConnection)` (lines 192–203): requires the
browser online, a non-slow connection unless overridden, a parseable URL
with the same origin, a different path-or-query, and that the raw `url`
string is not already in the `prefetchedPages` set.  The `try`/`catch`
around `new URL` is modelled by `parseUrl` returning `none`. -/
def canPrefetch (env : PrefetchEnv) (prefetchedPages : List String)
    (url : String) (ignoreSlowConnection : Bool) : Bool :=
  if ¬ env.online ∨ (¬ ignoreSlowConnection ∧ env.slowConnection) then false
  else
    match env.parseUrl url with
    | none => false
    | some targetUrl =>
        env.locationOrigin = targetUrl.origin ∧
        (env.locationPathname ≠ targetUrl.pathname ∨ env.locationSearch ≠ targetUrl.search) ∧
        url ∉ prefetchedPages

/-- `prefetchPage(url, options)` (lines 173–190): returns the updated
`prefetchedPages` set and the single network/DOM effect, if any.  When
`canPrefetch` fails the function returns early, leaving the set unchanged
and issuing nothing. -/
def prefetchPage (env : PrefetchEnv) (prefetchedPages : List String)
    (url : String) (options : PrefetchOpts) : List String × Option PrefetchAction :=
  let ignoreSlowConnection := options.ignoreSlowConnection.getD false
  if ¬ canPrefetch env prefetchedPages url ignoreSlowConnection then
    (prefetchedPages, none)
  else
    let prefetched := url :: prefetchedPages
    if options.prefetchWith.getD "link" = "link" then
      (prefetched, some (PrefetchAction.preloadLink url))
    else
      (prefetched, some (PrefetchAction.fetchRequest url))

/-! ### Script re-execution (`executeScripts`, lines 591–618) -/

/-- A `<script>` element, restricted to the attributes `executeScripts`
reads: the `data-mkdocs-exec` marker (`dataset.mkdocsExec`, `none` when
the attribute is absent), the `type` attribute (`getAttribute("type")`,
`none` when absent), the `src` attribute, and inline content. -/
structure ScriptEl where
  mkdocsExec : Option String
  typeAttr : Option String
  srcAttr : Option String
  inlineContent : String
deriving DecidableEq, Repr

/-- The two `continue` guards of the `executeScripts` loop: a script is
skipped when `script.dataset.mkdocsExec === ""` or when its `type`
attribute is present, truthy (non-empty), and neither `"module"` nor
`"text/javascript"`. -/
def scriptSkipped (s : ScriptEl) : Bool :=
  if s.mkdocsExec = some "" then true
  else
    match s.typeAttr with
    | none => false
    | some t => t ≠ "" ∧ t ≠ "module" ∧ t ≠ "text/javascript"

/-- The fresh script element created for an executed script: identical
attributes and inline content, then `newScript.dataset.mkdocsExec = ""`
tags it inert. -/
def executedCopy (s : ScriptEl) : ScriptEl :=
  { s with mkdocsExec := some "" }

/-- `executeScripts()` over the document's script list: each non-skipped
script is replaced in place (`script.replaceWith(newScript)`) by its
tagged copy, which the browser executes.  Returns the resulting script
list and the list of freshly created (hence executed) scripts. -/
def executeScripts (scripts : List ScriptEl) : List ScriptEl × List ScriptEl :=
  (scripts.map (fun s => if scriptSkipped s then s else executedCopy s),
   (scripts.filter (fun s => ¬ scriptSkipped s)).map executedCopy)

/-! ### Search-term escaping (`escapeRegExp`, lines 1103–1105) -/

/-- The character class of the regex in `escapeRegExp`:
`/[.*+?^$\x7b\x7d()|[\]\\]/g`. -/
def regexMetaChars : List Char :=
  ['.', '*', '+', '?', '^', '$', '\x7b', '\x7d', '(', ')', '|', '[', ']', '\\']

/-- `escapeRegExp(string)` exactly as written in the source: every regex
metacharacter is replaced by the literal replacement string
`'\\        // Ad'` (a backslash, eight spaces, then `// Ad`) — the
replacement does not contain `$&`, so the matched character itself is
dropped. -/
def escapeRegExp (string : String) : String :=
  String.join (string.toList.map (fun c =>
    if c ∈ regexMetaChars then "\\        // Ad" else String.singleton c))

/-- Modelled from the spec: the intended contract of the search-term
regex escape helper — "correct regex metacharacter escaping", i.e. each
metacharacter is replaced by a backslash followed by that same character,
all other characters unchanged.  (The spec's §9 open question directs
that this, not the literal text observed, is the contract.) -/
def escapeRegExpIntended (string : String) : String :=
  String.join (string.toList.map (fun c =>
    if c ∈ regexMetaChars then String.mk ['\\', c] else String.singleton c))

/-! ### Document Fetcher (`fetchPage`, lines 351–374) -/

/-- The network response observed by one `fetch` call inside `fetchPage`:
the `content-type` header (`none` when absent), whether the request was
redirected, the final `response.url`, and the body text.  A network
failure (a `fetch` that throws) is modelled as the whole response being
absent (`Option.none` at the call site). -/
structure FetchResponse where
  contentTypeHeader : Option String
  redirected : Bool
  responseUrl : String
  bodyText : String
deriving DecidableEq, Repr

/-- Whitespace trimming on a character list (both ends), the list-level
counterpart of JavaScript `String.prototype.trim`. -/
def trimChars (l : List Char) : List Char :=
  ((l.dropWhile Char.isWhitespace).reverse.dropWhile Char.isWhitespace).reverse

/-- `(response.headers.get("content-type") ?? "").split(";", 1)[0].trim()`:
the header defaulted to the empty string, truncated at the first `;`,
then trimmed. -/
def contentTypeOf (header : Option String) : String :=
  String.mk (trimChars ((header.getD "").toList.takeWhile (fun c => c ≠ ';')))

/-- The successful return value of `fetchPage`: `html`, the redirect
target (`response.redirected ? response.url : undefined`) and the media
type. -/
structure FetchResult where
  html : String
  redirected : Option String
  mediaType : String
deriving DecidableEq, Repr

/-- `fetchPage(url, options)` (lines 351–374): `none` when the `fetch`
throws (network failure) or when the parsed content type is neither
`"text/html"` nor `"application/xhtml+xml"`; otherwise the body text,
redirect information and media type. -/
def fetchPage (response : Option FetchResponse) : Option FetchResult :=
  match response with
  | none => none
  | some r =>
      let contentType := contentTypeOf r.contentTypeHeader
      if contentType ≠ "text/html" ∧ contentType ≠ "application/xhtml+xml" then
        none
      else
        some { html := r.bodyText
               redirected := if r.redirected then some r.responseUrl else none
               mediaType := contentType }

/-! ### Transition Controller
(`navigateToPage`, `dispatchBeforePreparation`, `performPageSwap`,
`updateLocation`, `handlePopState`, lines 243–349, 395–414, 538–589,
648–662) -/

/-- The parsed destination document, restricted to what the loader reads
from it: whether `querySelector('[name="mkdocs-view-transitions-enabled"]')`
finds the soft-navigation opt-in marker. -/
structure NewDocument where
  hasViewTransitionsMeta : Bool
deriving DecidableEq, Repr

/-- The options bag passed to `navigateToPage`: the `history` mode
(`"auto"` or `"replace"`) and whether `options.formData` is present
(its contents are only forwarded to `fetch`, so a `Bool` suffices). -/
structure NavOptions where
  history : String := "auto"
  formData : Bool := false
deriving DecidableEq, Repr

/-- `history.state`: the per-entry state bag `{index, scrollX, scrollY}`
written by the engine (caller extras in `options.state` are opaque and
not modelled). -/
structure HistoryEntry where
  index : Nat
  scrollX : Int
  scrollY : Int
deriving DecidableEq, Repr

/-- The module-level mutable state read and written by the navigation
engine: `navigationIndex`, `history.state`, `location.href`, the tracked
`currentLocation`, and the current window scroll position. -/
structure NavState where
  navigationIndex : Nat
  historyState : Option HistoryEntry
  locationHref : String
  currentLocation : Url
  winScrollX : Int := 0
  winScrollY : Int := 0
deriving DecidableEq, Repr

/-- The fixed environment of one navigation: the feature flag
(`isViewTransitionsEnabled()`), native view-transition support,
the fallback animation meta value, the page origin (`location.origin`),
the network response this navigation's `fetch` would observe, the HTML
parser (`new DOMParser().parseFromString`), and URL parsing for strings
(`new URL(s)`). -/
structure NavEnv where
  viewTransitionsEnabled : Bool
  supportsViewTransitions : Bool := true
  fallbackAnimation : String := "animate"
  locationOrigin : String
  response : Option FetchResponse
  parseHTML : String → NewDocument
  urlOfString : String → Url

/-- Observable effects of the navigation engine, in program order. -/
inductive Action where
  | mergeScroll
  | beforePreparationEvent
  | fetchRequest
  | afterPreparationEvent
  | setTransitionAttr (direction : String)
  | animateOld
  | beforeSwapEvent
  | swapDoc
  | pushHistory (index : Nat) (href : String)
  | replaceHistory (href : String)
  | scrollToTop
  | scrollToPos (x y : Int)
  | assignLocationHash (href : String)
  | afterSwapEvent
  | animateNew
  | executeScriptsRun
  | pageLoadEvent
  | routeAnnouncer
  | setLocationHref (href : String)
  | reload
  | classifiedDirection (direction : String)
  | jsError
deriving DecidableEq, Repr

/-- `true` exactly for the two history-entry writes performed by
`updateLocation`: `originalPushState` (new entry) and
`originalReplaceState` with a new URL (entry replacement). -/
def Action.isHistoryWrite : Action → Bool
  | Action.pushHistory _ _ => true
  | Action.replaceHistory _ => true
  | _ => false

/-- `updateHistoryState(state)` (lines 45–50) as called with the current
window scroll: when `history.state` exists, shallow-merge the scroll
coordinates into the current entry via `originalReplaceState(..., "")` —
same entry, same URL, same index.  Recorded as `Action.mergeScroll`,
distinct from the entry writes of `updateLocation`. -/
def updateHistoryState (st : NavState) : NavState × List Action :=
  match st.historyState with
  | none => (st, [])
  | some s =>
      ({ st with historyState := some { s with scrollX := st.winScrollX, scrollY := st.winScrollY } },
       [Action.mergeScroll])

/-- `updateLocation(to, from, options, title, scrollState)`
(lines 538–589).  A history write happens only when `to.href` differs
from `location.href` and the navigation is not a traversal
(`scrollState` absent): `replace` mode re-writes the current entry under
the new URL keeping its index and scroll (reading `history.state`, a
thrown `TypeError` when it is `null` is modelled as `Action.jsError`
aborting the call), otherwise a new entry is pushed with
`index: ++navigationIndex` and zero scroll.  When `from` and `to` share
pathname and search (`isSameUrl`) the function returns right after the
write, performing no scrolling; otherwise it scrolls to the top and then
either restores the traversal scroll state or, for a URL with a hash,
assigns `location.href` to trigger the fragment scroll. -/
def updateLocation (st : NavState) (toUrl fromUrl : Url) (options : NavOptions)
    (scrollState : Option HistoryEntry) : NavState × List Action :=
  let isSameUrl := fromUrl.pathname = toUrl.pathname ∧ fromUrl.search = toUrl.search
  let finish (st0 : NavState) (acts : List Action) : NavState × List Action :=
    let st1 := { st0 with currentLocation := toUrl }
    if isSameUrl then (st1, acts)
    else
      let scrollActs :=
        match scrollState with
        | some sc => [Action.scrollToTop, Action.scrollToPos sc.scrollX sc.scrollY]
        | none =>
            if toUrl.hash ≠ "" then [Action.scrollToTop, Action.assignLocationHash toUrl.href]
            else [Action.scrollToTop]
      (st1, acts ++ scrollActs)
  if toUrl.href ≠ st.locationHref ∧ scrollState = none then
    if options.history = "replace" then
      match st.historyState with
      | none => (st, [Action.jsError])
      | some s =>
          finish { st with historyState := some s, locationHref := toUrl.href }
            [Action.replaceHistory toUrl.href]
    else
      finish { st with navigationIndex := st.navigationIndex + 1,
                       historyState := some ⟨st.navigationIndex + 1, 0, 0⟩,
                       locationHref := toUrl.href }
        [Action.pushHistory (st.navigationIndex + 1) toUrl.href]
  else finish st []

/-- The outcome of `dispatchBeforePreparation`'s loader (lines 313–336):
whether `preventDefault()` was called, the parsed destination document
(absent when `fetchPage` returned `null`), and the possibly
redirect-rewritten destination URL (`this.to = new URL(response.redirected)`). -/
structure PrepOutcome where
  prevented : Bool
  newDocument : Option NewDocument
  toUrl : Url
deriving Repr

/-- The `event.loader` body (lines 313–336): fetch the page; a `null`
result cancels the event; otherwise rewrite `to` on redirect, parse the
document, and cancel when the opt-in marker is missing and no form data
is carried. -/
def loader (env : NavEnv) (options : NavOptions) (toUrl : Url) : PrepOutcome :=
  match fetchPage env.response with
  | none => { prevented := true, newDocument := none, toUrl := toUrl }
  | some res =>
      let toFinal := match res.redirected with
                     | some u => env.urlOfString u
                     | none => toUrl
      let doc := env.parseHTML res.html
      if ¬ doc.hasViewTransitionsMeta ∧ ¬ options.formData then
        { prevented := true, newDocument := some doc, toUrl := toFinal }
      else
        { prevented := false, newDocument := some doc, toUrl := toFinal }

/-- `performPageSwap` (lines 395–414) with `skipTransition = false`: tag
the root with the transition direction, run the fallback "old" animation
when requested, dispatch the (non-cancelable) before-swap event whose
bound `swap()` executes the DOM swap, commit the URL via
`updateLocation`, dispatch the after-swap event, and run the fallback
"new" animation. -/
def performPageSwap (st : NavState) (direction : String) (toUrl fromUrl : Url)
    (options : NavOptions) (scrollState : Option HistoryEntry)
    (fallback : Option String) : NavState × List Action :=
  let animOld := if fallback = some "animate" then [Action.animateOld] else []
  let animNew := if fallback = some "animate" then [Action.animateNew] else []
  let r := updateLocation st toUrl fromUrl options scrollState
  (r.1,
   [Action.setTransitionAttr direction] ++ animOld ++
   [Action.beforeSwapEvent, Action.swapDoc] ++ r.2 ++
   [Action.afterSwapEvent] ++ animNew)

/-- `navigateToPage(direction, fromUrl, toUrl, options, scrollState)`
(lines 243–303) together with `dispatchBeforePreparation` (lines
305–349), with no external listeners.  Ineligible navigations (feature
disabled, cross-origin) assign `location.href` immediately.  Otherwise
the navigation type is derived, a non-traversal snapshots the window
scroll into the current history entry, same-document hash navigation
short-circuits to `updateLocation`, and the general path dispatches the
cancelable before-preparation event, runs its loader (performing the
fetch), falls back to `location.href` when the event was canceled, and
otherwise dispatches after-preparation, snapshots scroll again, performs
the page swap, then re-executes scripts, dispatches page-load and
creates the route announcer. -/
def navigateToPage (env : NavEnv) (st : NavState) (direction : String)
    (fromUrl toUrl : Url) (options : NavOptions)
    (scrollState : Option HistoryEntry) : NavState × List Action :=
  if ¬ env.viewTransitionsEnabled ∨ env.locationOrigin ≠ toUrl.origin then
    (st, [Action.setLocationHref toUrl.href])
  else
    let navigationType :=
      if scrollState.isSome then "traverse"
      else if options.history = "replace" then "replace" else "push"
    let pre := if navigationType ≠ "traverse" then updateHistoryState st else (st, [])
    let stA := pre.1
    let actsA := pre.2
    if (fromUrl.pathname = toUrl.pathname ∧ fromUrl.search = toUrl.search) ∧
       ((direction ≠ "back" ∧ toUrl.hash ≠ "") ∨ (direction = "back" ∧ fromUrl.hash ≠ "")) then
      let r := updateLocation stA toUrl fromUrl options scrollState
      (r.1, actsA ++ r.2)
    else
      let prep := loader env options toUrl
      let dispatchActs := [Action.beforePreparationEvent, Action.fetchRequest]
      if prep.prevented then
        (stA, actsA ++ dispatchActs ++ [Action.setLocationHref toUrl.href])
      else
        let post := if navigationType ≠ "traverse" then updateHistoryState stA else (stA, [])
        let fallback : Option String :=
          if env.supportsViewTransitions then none else some env.fallbackAnimation
        let r := performPageSwap post.1 direction prep.toUrl fromUrl options scrollState fallback
        (r.1,
         actsA ++ dispatchActs ++ [Action.afterPreparationEvent] ++ post.2 ++ r.2 ++
         [Action.executeScriptsRun, Action.pageLoadEvent, Action.routeAnnouncer])

/-- `handlePopState(event)` (lines 648–662): with the feature disabled
and a non-null event state, hard-reload; a null event state is ignored;
otherwise read `history.state`, classify the direction by comparing its
index with `navigationIndex` (strictly greater ⇒ `"forward"`, else
`"back"`), record the new index, and drive `navigateToPage` with the
stored state as `scrollState` (navigation type `traverse`).  Reading
`.index` off a null `history.state` would throw — modelled as
`Action.jsError`. -/
def handlePopState (env : NavEnv) (st : NavState)
    (eventState : Option HistoryEntry) : NavState × List Action :=
  if ¬ env.viewTransitionsEnabled ∧ eventState.isSome then
    (st, [Action.reload])
  else
    match eventState with
    | none => (st, [])
    | some _ =>
        match st.historyState with
        | none => (st, [Action.jsError])
        | some state =>
            let direction := if state.index > st.navigationIndex then "forward" else "back"
            let st1 := { st with navigationIndex := state.index }
            let r := navigateToPage env st1 direction st1.currentLocation
                       (env.urlOfString st1.locationHref) {} (some state)
            (r.1, Action.classifiedDirection direction :: r.2)

/-! ### DOM Swap Engine (`swapDocument`, `preserveActiveElement`,
`restoreActiveElement`, lines 437–517) — body-swap portion.

The body is modelled as a flat list of elements; each element carries a
`nodeId` distinguishing live object identity (the same `nodeId` means
the same DOM node), the optional `data-mkdocs-persist` attribute value,
whether it is a text-input element (`HTMLInputElement`/
`HTMLTextAreaElement`), and its selection offsets.  `closest` on a flat
body reduces to the element itself carrying the attribute. -/

/-- A body element as read by the swap code. -/
structure Elem where
  nodeId : Nat
  persistId : Option String
  isTextInput : Bool
  selStart : Nat
  selEnd : Nat
deriving DecidableEq, Repr

/-- The live document body plus `document.activeElement`
(by node identity; `none` when nothing in the body is focused). -/
structure Doc where
  body : List Elem
  focusedId : Option Nat
deriving DecidableEq, Repr

/-- `document.activeElement` resolved against the body. -/
def activeElement (d : Doc) : Option Elem :=
  match d.focusedId with
  | none => none
  | some nid => d.body.find? (fun e => e.nodeId = nid)

/-- The record returned by `preserveActiveElement` (lines 494–507):
the focused element (when it sits inside a persistent region) and, for
text inputs, its selection offsets. -/
structure PreservedFocus where
  element : Option Nat
  selStart : Option Nat
  selEnd : Option Nat
deriving DecidableEq, Repr

/-- `preserveActiveElement()` (lines 494–507): capture the focused
element only if `activeElement?.closest('[data-mkdocs-persist]')` finds
a persistent region, recording selection offsets for text inputs. -/
def preserveActiveElement (d : Doc) : PreservedFocus :=
  match activeElement d with
  | none => { element := none, selStart := none, selEnd := none }
  | some ae =>
      if ae.persistId.isSome then
        if ae.isTextInput then
          { element := some ae.nodeId, selStart := some ae.selStart, selEnd := some ae.selEnd }
        else
          { element := some ae.nodeId, selStart := none, selEnd := none }
      else
        { element := none, selStart := none, selEnd := none }

/-- `newElement.replaceWith(preserved)` driven by
`document.querySelector('[data-mkdocs-persist="id"]')`: replace the
first element of the body whose persist attribute matches the preserved
element's, leaving the body unchanged when no element matches. -/
def replaceFirstPersist (preserved : Elem) : List Elem → List Elem
  | [] => []
  | e :: rest =>
      if e.persistId = preserved.persistId then preserved :: rest
      else e :: replaceFirstPersist preserved rest

/-- `restoreActiveElement({element, start, end})` (lines 509–517):
focus the preserved element and, for text inputs, restore its selection
offsets. -/
def restoreActiveElement (d : Doc) (p : PreservedFocus) : Doc :=
  match p.element with
  | none => d
  | some nid =>
      { body := d.body.map (fun e =>
          if e.nodeId = nid ∧ e.isTextInput then
            { e with selStart := p.selStart.getD e.selStart,
                     selEnd := p.selEnd.getD e.selEnd }
          else e),
        focusedId := some nid }

/-- The body portion of `swapDocument(event)` (lines 462–477): save the
old body and the focus record, replace the body wholesale with the
incoming one (after which nothing is focused), then for each
old-body element marked persistent put the live old element back in
place of its same-identifier counterpart, and finally restore focus and
selection. -/
def swapDocument (d : Doc) (newBody : List Elem) : Doc :=
  let oldBody := d.body
  let active := preserveActiveElement d
  let persisted := oldBody.filter (fun e => e.persistId.isSome)
  let body2 := persisted.foldl (fun b p => replaceFirstPersist p b) newBody
  restoreActiveElement { body := body2, focusedId := none } active

/-! ### Trace observers and concrete fixtures used by the theorems -/

def noHistoryWrite (l : List Action) : Bool :=
  l.all (fun a => !a.isHistoryWrite)

def noFetchSwapPrep (l : List Action) : Bool :=
  l.all (fun a => match a with
    | Action.fetchRequest => false
    | Action.swapDoc => false
    | Action.beforePreparationEvent => false
    | _ => true)

def mkUrl (s : String) : Url :=
  { origin := "https://s", pathname := s, search := "", hash := "", href := s }

def urlIntro : Url :=
  { origin := "https://s", pathname := "/docs/page", search := "?a=1", hash := "#intro",
    href := "https://s/docs/page?a=1#intro" }

def urlUsage : Url :=
  { origin := "https://s", pathname := "/docs/page", search := "?a=1", hash := "#usage",
    href := "https://s/docs/page?a=1#usage" }

def urlPlain : Url :=
  { origin := "https://s", pathname := "/docs/page", search := "?a=1", hash := "",
    href := "https://s/docs/page?a=1" }

def urlOther : Url :=
  { origin := "https://s", pathname := "/other", search := "", hash := "",
    href := "https://s/other" }

def stW : NavState :=
  { navigationIndex := 0, historyState := some ⟨0, 0, 0⟩,
    locationHref := urlIntro.href, currentLocation := urlIntro }

def stPop : NavState :=
  { navigationIndex := 3, historyState := some ⟨1, 10, 20⟩,
    locationHref := urlIntro.href, currentLocation := urlIntro }

def jsonResponse : FetchResponse :=
  { contentTypeHeader := some "application/json", redirected := false,
    responseUrl := "", bodyText := "" }

def htmlNoMarkerResponse : FetchResponse :=
  { contentTypeHeader := some "text/html; charset=utf-8", redirected := false,
    responseUrl := "", bodyText := "page without marker" }

def envJson : NavEnv :=
  { viewTransitionsEnabled := true, locationOrigin := "https://s",
    response := some jsonResponse,
    parseHTML := fun _ => { hasViewTransitionsMeta := true },
    urlOfString := mkUrl }

def envNoMarker : NavEnv :=
  { viewTransitionsEnabled := true, locationOrigin := "https://s",
    response := some htmlNoMarkerResponse,
    parseHTML := fun _ => { hasViewTransitionsMeta := false },
    urlOfString := mkUrl }

def envNoResponse : NavEnv :=
  { viewTransitionsEnabled := true, locationOrigin := "https://s",
    response := none,
    parseHTML := fun _ => { hasViewTransitionsMeta := true },
    urlOfString := mkUrl }

/-- Environment used to instantiate the prefetch theorems: online,
fast connection, and a parser mapping every string to a same-origin URL
with a path different from the current one. -/
def prefetchEnvW : PrefetchEnv :=
  { online := true, slowConnection := false, locationOrigin := "https://s",
    locationPathname := "/", locationSearch := "",
    parseUrl := fun u =>
      some { origin := "https://s", pathname := "/p", search := "", hash := "", href := u } }

/-- Environment whose URL parser rejects every string
(`new URL` always throws). -/
def prefetchEnvBad : PrefetchEnv :=
  { online := true, slowConnection := false, locationOrigin := "https://s",
    locationPathname := "/", locationSearch := "",
    parseUrl := fun _ => none }

/-! ## Theorems -/

/-- C6: For every URL, calling `prefetchPage` on it and then calling
`prefetchPage` on the same URL again makes the second call a no-op: when
the first call was eligible (`canPrefetch` held), the URL lands in the
prefetched set, `canPrefetch` returns `false` on the second call because
the URL is already a member, so the set is unchanged and no second
request or preload link is issued. -/
theorem prefetchPage_second_call_noop (env : PrefetchEnv) (s : List String)
    (url : String) (options : PrefetchOpts)
    (h : canPrefetch env s url (options.ignoreSlowConnection.getD false) = true) :
    url ∈ (prefetchPage env s url options).1 ∧
    canPrefetch env (prefetchPage env s url options).1 url
      (options.ignoreSlowConnection.getD false) = false ∧
    prefetchPage env (prefetchPage env s url options).1 url options =
      ((prefetchPage env s url options).1, none) := by
  have hset : (prefetchPage env s url options).1 = url :: s := by
    unfold prefetchPage
    rw [if_neg (by simp [h])]
    split <;> rfl
  have hnot : canPrefetch env (url :: s) url
      (options.ignoreSlowConnection.getD false) = false := by
    unfold canPrefetch at h ⊢
    split at h
    · exact absurd h (by simp)
    · split
      · rfl
      · rcases hp : env.parseUrl url with _ | t
        · rfl
        · rw [hp] at h
          simp only [hp, decide_eq_false_iff_not]
          simp only [decide_eq_true_eq] at h
          intro hc
          exact hc.2.2 (List.mem_cons_self url s)
  refine ⟨?_, ?_, ?_⟩
  · rw [hset]; exact List.mem_cons_self url s
  · rw [hset]; exact hnot
  · rw [hset]
    unfold prefetchPage
    simp [hnot]

/-- C6 witness: concrete run of the dedup round-trip. -/
theorem prefetchPage_second_call_noop_witness :
    "https://s/p" ∈ (prefetchPage prefetchEnvW [] "https://s/p" {}).1 ∧
    canPrefetch prefetchEnvW (prefetchPage prefetchEnvW [] "https://s/p" {}).1 "https://s/p"
      ((PrefetchOpts.mk none none).ignoreSlowConnection.getD false) = false ∧
    prefetchPage prefetchEnvW (prefetchPage prefetchEnvW [] "https://s/p" {}).1 "https://s/p" {} =
      ((prefetchPage prefetchEnvW [] "https://s/p" {}).1, none) :=
  prefetchPage_second_call_noop prefetchEnvW [] "https://s/p" {} (by decide)

/-- C10: For every string that cannot be parsed as a URL relative to the
current location, `canPrefetch` returns `false` (the parse failure is
caught, never propagated), and consequently `prefetchPage` returns
without adding the string to the prefetched set and without issuing any
fetch or preload link. -/
theorem canPrefetch_unparseable_url (env : PrefetchEnv) (s : List String)
    (url : String) (options : PrefetchOpts)
    (h : env.parseUrl url = none) :
    (∀ ignoreSlowConnection : Bool,
        canPrefetch env s url ignoreSlowConnection = false) ∧
    prefetchPage env s url options = (s, none) := by
  have hcan : ∀ i : Bool, canPrefetch env s url i = false := by
    intro i
    unfold canPrefetch
    split
    · rfl
    · rw [h]
  refine ⟨hcan, ?_⟩
  unfold prefetchPage
  simp [hcan]

/-- C10 witness: concrete unparseable-URL run. -/
theorem canPrefetch_unparseable_url_witness :
    (∀ ignoreSlowConnection : Bool,
        canPrefetch prefetchEnvBad [] "::bad::" ignoreSlowConnection = false) ∧
    prefetchPage prefetchEnvBad [] "::bad::" {} = ([], none) :=
  canPrefetch_unparseable_url prefetchEnvBad [] "::bad::" {} rfl

/-- C8: the claim states the intended contract — each regex
metacharacter replaced by a backslash followed by that same character —
but `escapeRegExp` as written replaces every metacharacter with the
fixed string `"\\        // Ad"`, dropping the matched character: on the
input `"."` the code yields `"\\        // Ad"` while the contract
requires `"\\."`.  The code contradicts the intended behavior the spec
designates as the contract. -/
theorem escapeRegExp_drops_matched_char :
    escapeRegExp "." = "\\        // Ad" ∧
    escapeRegExpIntended "." = "\\." ∧
    escapeRegExp "." ≠ escapeRegExpIntended "." ∧
    escapeRegExp "a-b" = "a-b" := by
  refine ⟨rfl, rfl, by decide, rfl⟩

/-- Every script surviving one pass of the `executeScripts` loop is
skipped by the next pass: it either already carried the inert marker,
was ineligible by `type`, or has just been re-created with the marker. -/
theorem scriptSkipped_after_pass (s : ScriptEl) :
    scriptSkipped (if scriptSkipped s then s else executedCopy s) = true := by
  by_cases h : scriptSkipped s = true
  · simp [h]
  · simp only [h, if_false, Bool.false_eq_true]
    unfold scriptSkipped executedCopy
    simp

/-- C9: `executeScripts` is idempotent — every script element it
re-creates is tagged with the inert marker (`data-mkdocs-exec`), and the
loop skips any script carrying that marker (or ineligible by `type`), so
a second call with no intervening swap re-executes no scripts and leaves
the document's script elements unchanged. -/
theorem executeScripts_idempotent (scripts : List ScriptEl) :
    ((executeScripts scripts).2.all (fun s => s.mkdocsExec == some "")) = true ∧
    executeScripts (executeScripts scripts).1 = ((executeScripts scripts).1, []) := by
  constructor
  · unfold executeScripts
    simp [executedCopy]
  · unfold executeScripts
    simp only [Prod.mk.injEq]
    constructor
    · rw [List.map_map]
      apply List.map_congr_left
      intro s _
      simp [scriptSkipped_after_pass s]
    · rw [List.filter_map]  -- may need adjustment
      simp [scriptSkipped_after_pass]

/-- C7: for a swap where the live body contains element `A` tagged with
persistent identifier `"x"`, holding focus with selection range `[2,5]`,
and the incoming body contains a different element `B` with the same
identifier, after `swapDocument` completes the original live element `A`
— not `B` — is present in the document, is the focused element, and its
selection range is restored to `[2,5]`. -/
theorem swapDocument_preserves_live_element (A B : Elem)
    (hA : A.persistId = some "x") (hB : B.persistId = some "x")
    (hinput : A.isTextInput = true)
    (hstart : A.selStart = 2) (hend : A.selEnd = 5)
    (hne : A.nodeId ≠ B.nodeId) :
    swapDocument { body := [A], focusedId := some A.nodeId } [B] =
      { body := [A], focusedId := some A.nodeId } ∧
    A ∈ (swapDocument { body := [A], focusedId := some A.nodeId } [B]).body ∧
    B ∉ (swapDocument { body := [A], focusedId := some A.nodeId } [B]).body ∧
    activeElement (swapDocument { body := [A], focusedId := some A.nodeId } [B]) = some A ∧
    A.selStart = 2 ∧ A.selEnd = 5 := by
  have hswap : swapDocument { body := [A], focusedId := some A.nodeId } [B] =
      { body := [A], focusedId := some A.nodeId } := by
    unfold swapDocument preserveActiveElement activeElement
    simp only [List.find?, List.filter]
    simp [hA, hB, hinput, restoreActiveElement, replaceFirstPersist]
    cases A
    simp_all
  have hBneA : B ≠ A := fun hEq => hne (hEq ▸ rfl)
  refine ⟨hswap, ?_, ?_, ?_, hstart, hend⟩
  · rw [hswap]; exact List.mem_singleton.mpr rfl
  · rw [hswap]
    intro hmem
    exact hBneA (List.mem_singleton.mp hmem)
  · rw [hswap]
    unfold activeElement
    simp

/-- C7 witness: the scenario instantiated with concrete elements. -/
theorem swapDocument_preserves_live_element_witness :
    swapDocument { body := [Elem.mk 1 (some "x") true 2 5], focusedId := some 1 }
        [Elem.mk 9 (some "x") false 0 0] =
      { body := [Elem.mk 1 (some "x") true 2 5], focusedId := some 1 } ∧
    Elem.mk 1 (some "x") true 2 5 ∈
      (swapDocument { body := [Elem.mk 1 (some "x") true 2 5], focusedId := some 1 }
        [Elem.mk 9 (some "x") false 0 0]).body ∧
    Elem.mk 9 (some "x") false 0 0 ∉
      (swapDocument { body := [Elem.mk 1 (some "x") true 2 5], focusedId := some 1 }
        [Elem.mk 9 (some "x") false 0 0]).body ∧
    activeElement (swapDocument { body := [Elem.mk 1 (some "x") true 2 5], focusedId := some 1 }
        [Elem.mk 9 (some "x") false 0 0]) = some (Elem.mk 1 (some "x") true 2 5) ∧
    (Elem.mk 1 (some "x") true 2 5).selStart = 2 ∧
    (Elem.mk 1 (some "x") true 2 5).selEnd = 5 :=
  swapDocument_preserves_live_element (Elem.mk 1 (some "x") true 2 5)
    (Elem.mk 9 (some "x") false 0 0) rfl rfl rfl rfl rfl (by decide)

theorem updateLocation_traverse_eq (st : NavState) (toUrl fromUrl : Url)
    (options : NavOptions) (s : HistoryEntry) :
    updateLocation st toUrl fromUrl options (some s) =
      ({ st with currentLocation := toUrl },
        if fromUrl.pathname = toUrl.pathname ∧ fromUrl.search = toUrl.search then ([] : List Action)
        else [Action.scrollToTop, Action.scrollToPos s.scrollX s.scrollY]) := by
  unfold updateLocation
  simp
  split <;> rfl

theorem updateLocation_traverse_no_write (st : NavState) (toUrl fromUrl : Url)
    (options : NavOptions) (s : HistoryEntry) :
    noHistoryWrite (updateLocation st toUrl fromUrl options (some s)).2 = true := by
  rw [updateLocation_traverse_eq]
  split <;> rfl

theorem navigateToPage_traverse (env : NavEnv) (st : NavState) (direction : String)
    (fromUrl toUrl : Url) (options : NavOptions) (s : HistoryEntry) :
    noHistoryWrite (navigateToPage env st direction fromUrl toUrl options (some s)).2 = true ∧
    (navigateToPage env st direction fromUrl toUrl options (some s)).1.navigationIndex
        = st.navigationIndex ∧
    (navigateToPage env st direction fromUrl toUrl options (some s)).1.historyState
        = st.historyState ∧
    (navigateToPage env st direction fromUrl toUrl options (some s)).1.locationHref
        = st.locationHref := by
  unfold navigateToPage performPageSwap
  split
  · exact ⟨rfl, rfl, rfl, rfl⟩
  · simp only [Option.isSome_some, ite_true, ne_eq, not_true_eq_false, ite_false,
      updateLocation_traverse_eq]
    split
    · refine ⟨?_, rfl, rfl, rfl⟩
      split <;> rfl
    · split
      · exact ⟨rfl, rfl, rfl, rfl⟩
      · refine ⟨?_, rfl, rfl, rfl⟩
        split_ifs <;> rfl

theorem handlePopState_eq (env : NavEnv) (st : NavState) (s es : HistoryEntry)
    (henv : env.viewTransitionsEnabled = true)
    (hhs : st.historyState = some s) :
    handlePopState env st (some es) =
      (let direction := if s.index > st.navigationIndex then "forward" else "back"
       let st1 : NavState := { st with navigationIndex := s.index }
       let r := navigateToPage env st1 direction st1.currentLocation
                  (env.urlOfString st1.locationHref) {} (some s)
       (r.1, Action.classifiedDirection direction :: r.2)) := by
  unfold handlePopState
  rw [if_neg (by simp [henv]), hhs]

/-- C4: for every popstate event carrying a state whose sequence index
is strictly greater than the last known navigation index, the handler
classifies the direction as `"forward"`, otherwise (lesser or equal) as
`"back"`; and every traversal navigation (scroll state present) performs
no history push or replace — neither anywhere in the popstate-driven
trace nor in any `updateLocation` call carrying a scroll state. -/
theorem handlePopState_direction_and_no_write (env : NavEnv) (st : NavState)
    (es s : HistoryEntry)
    (henv : env.viewTransitionsEnabled = true)
    (hhs : st.historyState = some s) :
    (handlePopState env st (some es)).2.head? =
      some (Action.classifiedDirection
        (if s.index > st.navigationIndex then "forward" else "back")) ∧
    noHistoryWrite (handlePopState env st (some es)).2 = true ∧
    (∀ (st1 : NavState) (toU fromU : Url) (o : NavOptions) (sc : HistoryEntry),
        noHistoryWrite (updateLocation st1 toU fromU o (some sc)).2 = true) := by
  rw [handlePopState_eq env st s es henv hhs]
  exact ⟨rfl, (navigateToPage_traverse env { st with navigationIndex := s.index }
    (if s.index > st.navigationIndex then "forward" else "back")
    ({ st with navigationIndex := s.index }).currentLocation
    (env.urlOfString ({ st with navigationIndex := s.index }).locationHref) {} s).1,
    fun st1 toU fromU o sc => updateLocation_traverse_no_write st1 toU fromU o sc⟩

/-- C5: calling the popstate handler twice in succession with the same
history state leaves the tracked navigation index equal to that state's
index — the index is not incremented, decremented, or otherwise counted
twice by the repeated call (and the history entry itself is untouched by
the first call). -/
theorem handlePopState_idem (env : NavEnv) (st : NavState) (s : HistoryEntry)
    (henv : env.viewTransitionsEnabled = true)
    (hhs : st.historyState = some s) :
    (handlePopState env st (some s)).1.navigationIndex = s.index ∧
    (handlePopState env st (some s)).1.historyState = some s ∧
    (handlePopState env (handlePopState env st (some s)).1 (some s)).1.navigationIndex
      = s.index := by
  have step : ∀ st' : NavState, st'.historyState = some s →
      (handlePopState env st' (some s)).1.navigationIndex = s.index ∧
      (handlePopState env st' (some s)).1.historyState = some s := by
    intro st' h'
    rw [handlePopState_eq env st' s s henv h']
    obtain ⟨-, hn, hh, -⟩ := navigateToPage_traverse env
      { st' with navigationIndex := s.index }
      (if s.index > st'.navigationIndex then "forward" else "back")
      ({ st' with navigationIndex := s.index }).currentLocation
      (env.urlOfString ({ st' with navigationIndex := s.index }).locationHref)
      {} s
    have hh2 : (navigateToPage env { st' with navigationIndex := s.index }
        (if s.index > st'.navigationIndex then "forward" else "back")
        ({ st' with navigationIndex := s.index }).currentLocation
        (env.urlOfString ({ st' with navigationIndex := s.index }).locationHref)
        {} (some s)).1.historyState = st'.historyState := hh
    exact ⟨hn, hh2.trans h'⟩
  obtain ⟨h1, h2⟩ := step st hhs
  exact ⟨h1, h2, (step _ h2).1⟩

theorem noFetchSwapPrep_spec (l : List Action) (h : noFetchSwapPrep l = true) :
    Action.fetchRequest ∉ l ∧ Action.swapDoc ∉ l ∧ Action.beforePreparationEvent ∉ l := by
  rw [noFetchSwapPrep, List.all_eq_true] at h
  refine ⟨fun hm => ?_, fun hm => ?_, fun hm => ?_⟩ <;> simpa using h _ hm

theorem updateLocation_noFetchSwapPrep (st : NavState) (toUrl fromUrl : Url)
    (options : NavOptions) (scrollState : Option HistoryEntry) :
    noFetchSwapPrep (updateLocation st toUrl fromUrl options scrollState).2 = true := by
  rcases scrollState with _ | sc <;>
    rcases hh : st.historyState with _ | hs <;>
      simp only [updateLocation, hh] <;>
        split_ifs <;> rfl

theorem navigateToPage_prevented_eq (env : NavEnv) (st : NavState) (direction : String)
    (fromUrl toUrl : Url) (options : NavOptions) (scrollState : Option HistoryEntry)
    (henv : env.viewTransitionsEnabled = true)
    (horig : env.locationOrigin = toUrl.origin)
    (hnohash : ¬ ((fromUrl.pathname = toUrl.pathname ∧ fromUrl.search = toUrl.search) ∧
        ((direction ≠ "back" ∧ toUrl.hash ≠ "") ∨ (direction = "back" ∧ fromUrl.hash ≠ ""))))
    (hprev : (loader env options toUrl).prevented = true) :
    navigateToPage env st direction fromUrl toUrl options scrollState =
      (let pre := if scrollState.isSome then (st, ([] : List Action)) else updateHistoryState st
       (pre.1, pre.2 ++ [Action.beforePreparationEvent, Action.fetchRequest,
          Action.setLocationHref toUrl.href])) := by
  unfold navigateToPage
  rw [if_neg (by simp [henv, horig]), if_neg hnohash]
  cases scrollState with
  | some s =>
      simp only [Option.isSome_some, ite_true, ne_eq, not_true_eq_false, ite_false]
      simp [hprev]
  | none =>
      simp only [Option.isSome_none, Bool.false_eq_true, ite_false]
      have hnt : ¬ ((if options.history = "replace" then "replace" else "push") = "traverse") := by
        split <;> decide
      simp only [ne_eq, hnt, not_false_eq_true, ite_true, hprev]
      simp

theorem prevented_trace_props (env : NavEnv) (st : NavState) (direction : String)
    (fromUrl toUrl : Url) (options : NavOptions) (scrollState : Option HistoryEntry)
    (henv : env.viewTransitionsEnabled = true)
    (horig : env.locationOrigin = toUrl.origin)
    (hnohash : ¬ ((fromUrl.pathname = toUrl.pathname ∧ fromUrl.search = toUrl.search) ∧
        ((direction ≠ "back" ∧ toUrl.hash ≠ "") ∨ (direction = "back" ∧ fromUrl.hash ≠ ""))))
    (hprev : (loader env options toUrl).prevented = true) :
    (navigateToPage env st direction fromUrl toUrl options scrollState).2.getLast? =
      some (Action.setLocationHref toUrl.href) ∧
    noHistoryWrite (navigateToPage env st direction fromUrl toUrl options scrollState).2 = true ∧
    Action.swapDoc ∉ (navigateToPage env st direction fromUrl toUrl options scrollState).2 ∧
    (navigateToPage env st direction fromUrl toUrl options scrollState).1.navigationIndex
      = st.navigationIndex := by
  rw [navigateToPage_prevented_eq env st direction fromUrl toUrl options scrollState
    henv horig hnohash hprev]
  cases scrollState with
  | some s => exact ⟨rfl, rfl, by simp, rfl⟩
  | none =>
      unfold updateHistoryState
      cases hh : st.historyState with
      | none => exact ⟨rfl, rfl, by simp, rfl⟩
      | some s => exact ⟨rfl, rfl, by simp, rfl⟩

theorem navigateToPage_hash_eq (env : NavEnv) (st : NavState) (direction : String)
    (fromUrl toUrl : Url) (options : NavOptions) (scrollState : Option HistoryEntry)
    (henv : env.viewTransitionsEnabled = true)
    (horig : env.locationOrigin = toUrl.origin)
    (hsame : fromUrl.pathname = toUrl.pathname ∧ fromUrl.search = toUrl.search)
    (hhash : (direction ≠ "back" ∧ toUrl.hash ≠ "") ∨ (direction = "back" ∧ fromUrl.hash ≠ "")) :
    navigateToPage env st direction fromUrl toUrl options scrollState =
      (let pre := if scrollState.isSome then (st, ([] : List Action)) else updateHistoryState st
       let r := updateLocation pre.1 toUrl fromUrl options scrollState
       (r.1, pre.2 ++ r.2)) := by
  unfold navigateToPage
  rw [if_neg (by simp [henv, horig]), if_pos ⟨hsame, hhash⟩]
  cases scrollState with
  | some s =>
      simp only [Option.isSome_some, ite_true, ne_eq, not_true_eq_false, ite_false]
  | none =>
      simp only [Option.isSome_none, Bool.false_eq_true, ite_false]
      have hnt : ¬ ((if options.history = "replace" then "replace" else "push") = "traverse") := by
        split <;> decide
      simp only [ne_eq, hnt, not_false_eq_true, ite_true]

theorem updateHistoryState_noFetchSwapPrep (st : NavState) :
    noFetchSwapPrep (updateHistoryState st).2 = true := by
  unfold updateHistoryState
  rcases st.historyState <;> rfl

/-- C3 (amended): for every navigation where the from-URL and to-URL
have identical pathname and search and the relevant fragment is nonempty
(the destination fragment for non-back navigations, the source fragment
for back navigations — e.g. `/docs/page?a=1#intro` to
`/docs/page?a=1#usage`), `navigateToPage` performs no fetch and no
document swap and dispatches no preparation event: it goes directly to
the history/URL update in `updateLocation`. -/

theorem hash_navigation_no_fetch (env : NavEnv) (st : NavState) (direction : String)
    (fromUrl toUrl : Url) (options : NavOptions) (scrollState : Option HistoryEntry)
    (henv : env.viewTransitionsEnabled = true)
    (horig : env.locationOrigin = toUrl.origin)
    (hsame : fromUrl.pathname = toUrl.pathname ∧ fromUrl.search = toUrl.search)
    (hhash : (direction ≠ "back" ∧ toUrl.hash ≠ "") ∨ (direction = "back" ∧ fromUrl.hash ≠ "")) :
    Action.fetchRequest ∉ (navigateToPage env st direction fromUrl toUrl options scrollState).2 ∧
    Action.swapDoc ∉ (navigateToPage env st direction fromUrl toUrl options scrollState).2 ∧
    Action.beforePreparationEvent ∉
      (navigateToPage env st direction fromUrl toUrl options scrollState).2 ∧
    navigateToPage env st direction fromUrl toUrl options scrollState =
      (let pre := if scrollState.isSome then (st, ([] : List Action)) else updateHistoryState st
       let r := updateLocation pre.1 toUrl fromUrl options scrollState
       (r.1, pre.2 ++ r.2)) := by
  have heq := navigateToPage_hash_eq env st direction fromUrl toUrl options scrollState
    henv horig hsame hhash
  have happ : ∀ l1 l2 : List Action,
      noFetchSwapPrep (l1 ++ l2) = (noFetchSwapPrep l1 && noFetchSwapPrep l2) := by
    intro l1 l2
    exact List.all_append
  have hall : noFetchSwapPrep
      (navigateToPage env st direction fromUrl toUrl options scrollState).2 = true := by
    rw [heq]
    rcases hs : scrollState.isSome
    · simp only [hs]
      rw [if_neg (by simp), happ, updateHistoryState_noFetchSwapPrep st,
        updateLocation_noFetchSwapPrep]
      rfl
    · simp only [hs]
      rw [if_pos trivial]
      show noFetchSwapPrep ([] ++ _) = true
      rw [List.nil_append]
      exact updateLocation_noFetchSwapPrep st toUrl fromUrl options scrollState
  obtain ⟨ha, hb, hc⟩ := noFetchSwapPrep_spec _ hall
  exact ⟨ha, hb, hc, heq⟩

/-- C1: for every navigation whose fetched response has a content type
other than HTML/XHTML (e.g. `application/json`), `fetchPage` returns
`null`, the pre-preparation event's loader cancels the event, and
`navigateToPage` falls back by assigning `location.href`; no history
entry is pushed or replaced (no `originalPushState`, and no
`originalReplaceState` that creates or re-targets an entry — the only
history operation on this path is the scroll merge into the existing
entry), and the navigation index is unchanged. -/

theorem nonHtml_response_falls_back (env : NavEnv) (st : NavState) (direction : String)
    (fromUrl toUrl : Url) (options : NavOptions) (scrollState : Option HistoryEntry)
    (r : FetchResponse)
    (henv : env.viewTransitionsEnabled = true)
    (horig : env.locationOrigin = toUrl.origin)
    (hresp : env.response = some r)
    (hct1 : contentTypeOf r.contentTypeHeader ≠ "text/html")
    (hct2 : contentTypeOf r.contentTypeHeader ≠ "application/xhtml+xml")
    (hnohash : ¬ ((fromUrl.pathname = toUrl.pathname ∧ fromUrl.search = toUrl.search) ∧
        ((direction ≠ "back" ∧ toUrl.hash ≠ "") ∨ (direction = "back" ∧ fromUrl.hash ≠ "")))) :
    fetchPage env.response = none ∧
    (loader env options toUrl).prevented = true ∧
    (navigateToPage env st direction fromUrl toUrl options scrollState).2.getLast? =
      some (Action.setLocationHref toUrl.href) ∧
    noHistoryWrite (navigateToPage env st direction fromUrl toUrl options scrollState).2 = true ∧
    Action.swapDoc ∉ (navigateToPage env st direction fromUrl toUrl options scrollState).2 ∧
    (navigateToPage env st direction fromUrl toUrl options scrollState).1.navigationIndex
      = st.navigationIndex := by
  have hfetch : fetchPage env.response = none := by
    simp only [hresp, fetchPage]
    rw [if_pos ⟨hct1, hct2⟩]
  have hprev : (loader env options toUrl).prevented = true := by
    unfold loader
    rw [hfetch]
  obtain ⟨p1, p2, p3, p4⟩ := prevented_trace_props env st direction fromUrl toUrl options
    scrollState henv horig hnohash hprev
  exact ⟨hfetch, hprev, p1, p2, p3, p4⟩

/-- C2: for every fetched destination document lacking the
soft-navigation opt-in marker element, the loader cancels the navigation
(forcing a full reload via the `location.href` fallback) if and only if
the navigation carries no form data; when form data is present, the
navigation proceeds via soft swap (`swapDoc` occurs in the trace). -/

theorem missing_marker_cancel_iff_no_formData (env : NavEnv) (st : NavState)
    (direction : String) (fromUrl toUrl : Url) (options : NavOptions)
    (scrollState : Option HistoryEntry) (r : FetchResponse)
    (henv : env.viewTransitionsEnabled = true)
    (horig : env.locationOrigin = toUrl.origin)
    (hresp : env.response = some r)
    (hct : contentTypeOf r.contentTypeHeader = "text/html" ∨
           contentTypeOf r.contentTypeHeader = "application/xhtml+xml")
    (hdoc : (env.parseHTML r.bodyText).hasViewTransitionsMeta = false)
    (hnohash : ¬ ((fromUrl.pathname = toUrl.pathname ∧ fromUrl.search = toUrl.search) ∧
        ((direction ≠ "back" ∧ toUrl.hash ≠ "") ∨ (direction = "back" ∧ fromUrl.hash ≠ "")))) :
    ((loader env options toUrl).prevented = !options.formData) ∧
    (options.formData = false →
        (navigateToPage env st direction fromUrl toUrl options scrollState).2.getLast? =
          some (Action.setLocationHref toUrl.href) ∧
        Action.swapDoc ∉ (navigateToPage env st direction fromUrl toUrl options scrollState).2) ∧
    (options.formData = true →
        Action.swapDoc ∈ (navigateToPage env st direction fromUrl toUrl options scrollState).2) := by
  have hfetch : fetchPage env.response = some
      { html := r.bodyText,
        redirected := if r.redirected then some r.responseUrl else none,
        mediaType := contentTypeOf r.contentTypeHeader } := by
    simp only [hresp, fetchPage]
    rcases hct with h | h <;> rw [if_neg (by simp [h])]
  have hload : (loader env options toUrl).prevented = !options.formData := by
    unfold loader
    simp only [hfetch]
    cases hf : options.formData
    · simp [hdoc, hf]
    · simp [hdoc, hf]
  refine ⟨hload, ?_, ?_⟩
  · intro hf
    have hprev : (loader env options toUrl).prevented = true := by
      rw [hload, hf]; rfl
    obtain ⟨p1, -, p3, -⟩ := prevented_trace_props env st direction fromUrl toUrl options
      scrollState henv horig hnohash hprev
    exact ⟨p1, p3⟩
  · intro hf
    have hprev : (loader env options toUrl).prevented = false := by
      rw [hload, hf]; rfl
    unfold navigateToPage performPageSwap
    rw [if_neg (by simp [henv, horig]), if_neg hnohash]
    cases scrollState with
    | some s =>
        simp only [Option.isSome_some, ite_true, ne_eq, not_true_eq_false, ite_false, hprev]
        simp [List.mem_append]
    | none =>
        simp only [Option.isSome_none, Bool.false_eq_true, ite_false, hprev]
        have hnt : ¬ ((if options.history = "replace" then "replace" else "push") = "traverse") := by
          split <;> decide
        simp only [ne_eq, hnt, not_false_eq_true, ite_true]
        simp [List.mem_append]

/-- C3 counterexample: the claim as stated quantifies over every pair of
URLs with identical pathname and search but differing fragments, but for
a destination URL with an empty fragment (`/docs/page?a=1#intro` to
`/docs/page?a=1`) the hash shortcut condition fails and `navigateToPage`
does trigger the fetch. -/

theorem hash_navigation_counterexample :
    urlIntro.pathname = urlPlain.pathname ∧
    urlIntro.search = urlPlain.search ∧
    urlIntro.hash ≠ urlPlain.hash ∧
    Action.fetchRequest ∈
      (navigateToPage envNoResponse stW "forward" urlIntro urlPlain {} none).2 := by
  refine ⟨rfl, rfl, by decide, ?_⟩
  decide

/-- C1 witness. -/

theorem nonHtml_response_falls_back_witness :
    fetchPage envJson.response = none ∧
    (loader envJson {} urlOther).prevented = true ∧
    (navigateToPage envJson stW "forward" urlIntro urlOther {} none).2.getLast? =
      some (Action.setLocationHref urlOther.href) ∧
    noHistoryWrite (navigateToPage envJson stW "forward" urlIntro urlOther {} none).2 = true ∧
    Action.swapDoc ∉ (navigateToPage envJson stW "forward" urlIntro urlOther {} none).2 ∧
    (navigateToPage envJson stW "forward" urlIntro urlOther {} none).1.navigationIndex
      = stW.navigationIndex :=
  nonHtml_response_falls_back envJson stW "forward" urlIntro urlOther {} none jsonResponse
    rfl rfl rfl (by decide) (by decide) (by decide)

/-- C2 witness. -/

theorem missing_marker_cancel_iff_no_formData_witness :
    ((loader envNoMarker { history := "auto", formData := true } urlOther).prevented =
      !(NavOptions.mk "auto" true).formData) ∧
    ((NavOptions.mk "auto" true).formData = false →
        (navigateToPage envNoMarker stW "forward" urlIntro urlOther
          { history := "auto", formData := true } none).2.getLast? =
          some (Action.setLocationHref urlOther.href) ∧
        Action.swapDoc ∉ (navigateToPage envNoMarker stW "forward" urlIntro urlOther
          { history := "auto", formData := true } none).2) ∧
    ((NavOptions.mk "auto" true).formData = true →
        Action.swapDoc ∈ (navigateToPage envNoMarker stW "forward" urlIntro urlOther
          { history := "auto", formData := true } none).2) :=
  missing_marker_cancel_iff_no_formData envNoMarker stW "forward" urlIntro urlOther
    { history := "auto", formData := true } none htmlNoMarkerResponse
    rfl rfl rfl (Or.inl (by decide)) rfl (by decide)

/-- C3 witness (amended claim). -/

theorem hash_navigation_no_fetch_witness :
    Action.fetchRequest ∉
      (navigateToPage envNoResponse stW "forward" urlIntro urlUsage {} none).2 ∧
    Action.swapDoc ∉
      (navigateToPage envNoResponse stW "forward" urlIntro urlUsage {} none).2 ∧
    Action.beforePreparationEvent ∉
      (navigateToPage envNoResponse stW "forward" urlIntro urlUsage {} none).2 ∧
    navigateToPage envNoResponse stW "forward" urlIntro urlUsage {} none =
      (let pre := if (none : Option HistoryEntry).isSome then (stW, ([] : List Action))
                  else updateHistoryState stW
       let r := updateLocation pre.1 urlUsage urlIntro {} none
       (r.1, pre.2 ++ r.2)) :=
  hash_navigation_no_fetch envNoResponse stW "forward" urlIntro urlUsage {} none
    rfl rfl (by decide) (Or.inl (by decide))

/-- C4 witness. -/

theorem handlePopState_direction_witness :
    (handlePopState envNoResponse stPop (some (HistoryEntry.mk 1 10 20))).2.head? =
      some (Action.classifiedDirection
        (if (HistoryEntry.mk 1 10 20).index > stPop.navigationIndex then "forward" else "back")) ∧
    noHistoryWrite (handlePopState envNoResponse stPop (some (HistoryEntry.mk 1 10 20))).2 = true ∧
    (∀ (st1 : NavState) (toU fromU : Url) (o : NavOptions) (sc : HistoryEntry),
        noHistoryWrite (updateLocation st1 toU fromU o (some sc)).2 = true) :=
  handlePopState_direction_and_no_write envNoResponse stPop
    (HistoryEntry.mk 1 10 20) (HistoryEntry.mk 1 10 20) rfl rfl

/-- C5 witness. -/

theorem handlePopState_idem_witness :
    (handlePopState envNoResponse stPop (some (HistoryEntry.mk 1 10 20))).1.navigationIndex =
      (HistoryEntry.mk 1 10 20).index ∧
    (handlePopState envNoResponse stPop (some (HistoryEntry.mk 1 10 20))).1.historyState =
      some (HistoryEntry.mk 1 10 20) ∧
    (handlePopState envNoResponse
        (handlePopState envNoResponse stPop (some (HistoryEntry.mk 1 10 20))).1
        (some (HistoryEntry.mk 1 10 20))).1.navigationIndex =
      (HistoryEntry.mk 1 10 20).index :=
  handlePopState_idem envNoResponse stPop (HistoryEntry.mk 1 10 20) rfl rfl

end Penguin
